import Mathlib

/-!
Shallow embedding of the contact-service send-email workflow.

The repository contains two variants of the class EmailService, each with a
method sendEmail and an identical method verifyConnection:
- the direct-SMTP variant (nodemailer transport, transporter cache keyed by
  credential id, attachments persisted into message_attachments);
- the provider-REST-API variant (Zoho OAuth client-credentials exchange,
  account lookup, out-of-band attachment staging, JSON send endpoint).

Database effects are modelled with an explicit Database value.  Each variant
runs inside one SQL transaction: BEGIN buffers writes, COMMIT publishes the
buffered state, ROLLBACK discards it.  A ROLLBACK issued after a COMMIT (as
happens in the SMTP variant when the dispatch error is re-thrown into the
outer catch block) is a no-op on the already-committed state; the embedding
reflects that by returning the committed state on that path.

External effects (repository lookup, SMTP dispatch, OAuth token exchange,
account lookup, attachment upload, REST send) are injected through an
environment record of fallible functions, so one embedding covers every
combination of success and failure of the collaborators.
-/

namespace ContactService

/-- CommunicationType from src/interfaces/Credential.ts. -/
inductive CommunicationType where
  | email
  | sms
  | whatsapp
deriving DecidableEq, Repr

/-- Credential interface from src/interfaces/Credential.ts: host, port and
secure are optional; username and password are required strings. -/
structure Credential where
  id : String
  name : String
  type : CommunicationType
  apiKey : String
  host : Option String
  port : Option Nat
  secure : Option Bool
  username : String
  password : String
deriving DecidableEq, Repr

/-- JavaScript truthiness of an optional string: undefined and the empty
string are falsy. -/
def strFalsy : Option String → Bool
  | none => true
  | some s => s == ""

/-- JavaScript truthiness of an optional numeric port: undefined and 0 are
falsy. -/
def natFalsy : Option Nat → Bool
  | none => true
  | some n => n == 0

/-- Truthiness used by the expressions message.html and message.text in the
provider variant: a defined, non-empty string is truthy. -/
def strTruthy (s : Option String) : Bool := !(strFalsy s)

/-- An attachment entry of an EmailMessage.  The source accepts a Buffer or a
base64 string and normalises both to bytes with Buffer.from; the embedding
keeps the resulting byte list. -/
structure Attachment where
  filename : String
  bytes : List Nat
  contentType : Option String
deriving DecidableEq, Repr

/-- The cc and bcc fields accept a single address or an array of addresses. -/
abbrev AddrField := Option (Sum String (List String))

/-- EmailMessage interface shared by both service variants. -/
structure EmailMessage where
  «to» : String
  subject : String
  text : Option String
  html : Option String
  cc : AddrField
  bcc : AddrField
  replyTo : Option String
  attachments : Option (List Attachment)
deriving DecidableEq

/-- Normalisation applied by the SMTP variant before the INSERT:
a single address becomes a one-element array, undefined becomes null. -/
def normalizeAddrs : AddrField → Option (List String)
  | none => none
  | some (Sum.inl s) => some [s]
  | some (Sum.inr l) => some l

/-- Status column of outgoing_messages. -/
inductive MsgStatus where
  | pending
  | sent
  | failed
deriving DecidableEq, Repr

/-- One row of the outgoing_messages table.  sent_at only records presence of
the timestamp. -/
structure OutgoingRow where
  id : Nat
  credential_id : String
  type : String
  recipient : String
  cc : Option (List String)
  bcc : Option (List String)
  reply_to : Option String
  subject : String
  body_text : Option String
  body_html : Option String
  status : MsgStatus
  error_message : Option String
  sent_at : Option Unit
deriving DecidableEq, Repr

/-- One row of the message_attachments table. -/
structure AttachmentRow where
  message_id : Nat
  filename : String
  content_type : Option String
  size_bytes : Nat
  content : List Nat
deriving DecidableEq, Repr

/-- The two outbox tables plus the id sequence of outgoing_messages. -/
structure Database where
  messages : List OutgoingRow
  attachments : List AttachmentRow
  nextId : Nat
deriving DecidableEq, Repr

/-- Well-formed database: every existing message id is below the sequence
value, so a freshly inserted row has a fresh id. -/
def dbWF (d : Database) : Bool :=
  d.messages.all (fun r => r.id < d.nextId)

/-- UPDATE outgoing_messages SET ... WHERE id = mid. -/
def updateStatus (mid : Nat) (f : OutgoingRow → OutgoingRow) (d : Database) :
    Database :=
  { d with messages := d.messages.map (fun r => if r.id = mid then f r else r) }

/-- Observable steps of one sendEmail or verifyConnection call, in execution
order.  Database statements and external network calls each leave one event. -/
inductive Event where
  | beginTx
  | insertPending
  | insertAttachmentRow
  | findCredential
  | buildTransport
  | smtpDispatch
  | oauthToken
  | accountLookup
  | stageAttachment
  | apiDispatch
  | updateSent
  | updateFailed
  | commitTx
  | rollbackTx
deriving DecidableEq, Repr

/-- The events that are remote network calls (SMTP dispatch, OAuth exchange,
account lookup, attachment upload, REST send); credential lookup and the
outbox statements are local database work. -/
def externalEvent : Event → Bool
  | Event.smtpDispatch => true
  | Event.oauthToken => true
  | Event.accountLookup => true
  | Event.stageAttachment => true
  | Event.apiDispatch => true
  | _ => false

/-- The row inserted by the SMTP variant:
INSERT INTO outgoing_messages (credential_id, type, recipient, cc, bcc,
reply_to, subject, body_text, body_html, status) VALUES (..., pending)
RETURNING id. -/
def insertPendingSmtp (credentialId : String) (m : EmailMessage)
    (d : Database) : OutgoingRow × Database :=
  let row : OutgoingRow :=
    { id := d.nextId
      credential_id := credentialId
      type := "email"
      recipient := m.«to»
      cc := normalizeAddrs m.cc
      bcc := normalizeAddrs m.bcc
      reply_to := m.replyTo
      subject := m.subject
      body_text := m.text
      body_html := m.html
      status := MsgStatus.pending
      error_message := none
      sent_at := none }
  (row, { d with messages := d.messages ++ [row], nextId := d.nextId + 1 })

/-- The rows inserted into message_attachments by the SMTP variant, one
INSERT per attachment; size_bytes is the length of the normalised content. -/
def attachmentRows (mid : Nat) (atts : List Attachment) : List AttachmentRow :=
  atts.map (fun a =>
    { message_id := mid
      filename := a.filename
      content_type := a.contentType
      size_bytes := a.bytes.length
      content := a.bytes })

instance {ε α : Type} [DecidableEq ε] [DecidableEq α] :
    DecidableEq (Except ε α) := fun a b =>
  match a, b with
  | Except.ok x, Except.ok y =>
      if h : x = y then isTrue (by rw [h])
      else isFalse (fun c => h (Except.ok.inj c))
  | Except.error e, Except.error f =>
      if h : e = f then isTrue (by rw [h])
      else isFalse (fun c => h (Except.error.inj c))
  | Except.ok _, Except.error _ => isFalse (fun c => nomatch c)
  | Except.error _, Except.ok _ => isFalse (fun c => nomatch c)

namespace SmtpService

/-- Collaborator outcomes for one call of the SMTP-variant sendEmail:
the outcome of the initial INSERT (insertFail injects a database error there),
of credentialRepository.findById, and of transporter.sendMail. -/
structure Env where
  insertFail : Option String
  findById : String → Except String (Option ContactService.Credential)
  sendMail : ContactService.Credential → ContactService.EmailMessage →
    Except String Unit

/-- Result of one SMTP-variant sendEmail call: the value returned or error
thrown, the committed database, the transporter-cache identity
(currentCredentialId) after the call, how many transports the call
constructed, and the event trace. -/
structure Outcome where
  result : Except String Unit
  db : ContactService.Database
  cache : Option String
  built : Nat
  trace : List ContactService.Event
deriving DecidableEq

/-- The SMTP-variant EmailService.sendEmail.  Control flow of the source:
BEGIN; INSERT pending row; INSERT attachment rows; findById with the
not-found, type and SMTP-field checks; build the transporter unless
currentCredentialId already equals the requested id; sendMail; on success
UPDATE to sent and COMMIT; on dispatch failure UPDATE to failed, COMMIT and
re-throw.  Every thrown error reaches the outer catch, which issues ROLLBACK
(a no-op on the paths that already committed) and wraps the error as
"Failed to send email: ...".  cache is the incoming currentCredentialId. -/
def sendEmail (env : Env) (cache : Option String) (credentialId : String)
    (m : ContactService.EmailMessage) (db : ContactService.Database) :
    Outcome :=
  match env.insertFail with
  | some e =>
      { result := Except.error ("Failed to send email: " ++ e)
        db := db
        cache := cache
        built := 0
        trace := [Event.beginTx, Event.insertPending, Event.rollbackTx] }
  | none =>
    let rd := insertPendingSmtp credentialId m db
    let atts := m.attachments.getD []
    let d2 : Database :=
      { rd.2 with
        attachments := rd.2.attachments ++ attachmentRows rd.1.id atts }
    let t2 : List Event :=
      [Event.beginTx, Event.insertPending] ++
        atts.map (fun _ => Event.insertAttachmentRow)
    match env.findById credentialId with
    | Except.error e =>
        { result := Except.error ("Failed to send email: " ++ e)
          db := db
          cache := cache
          built := 0
          trace := t2 ++ [Event.findCredential, Event.rollbackTx] }
    | Except.ok none =>
        { result := Except.error "Failed to send email: Credential not found"
          db := db
          cache := cache
          built := 0
          trace := t2 ++ [Event.findCredential, Event.rollbackTx] }
    | Except.ok (some c) =>
      if c.type ≠ CommunicationType.email then
        { result := Except.error
            "Failed to send email: Invalid credential type: not an email credential"
          db := db
          cache := cache
          built := 0
          trace := t2 ++ [Event.findCredential, Event.rollbackTx] }
      else if strFalsy c.host || natFalsy c.port || c.secure.isNone then
        { result := Except.error
            "Failed to send email: Invalid email credential: missing required SMTP configuration"
          db := db
          cache := cache
          built := 0
          trace := t2 ++ [Event.findCredential, Event.rollbackTx] }
      else
        let cache2 : Option String :=
          if cache = some credentialId then cache else some credentialId
        let builtN : Nat := if cache = some credentialId then 0 else 1
        let t3 : List Event :=
          if cache = some credentialId then t2 ++ [Event.findCredential]
          else t2 ++ [Event.findCredential, Event.buildTransport]
        match env.sendMail c m with
        | Except.ok _ =>
            { result := Except.ok ()
              db := updateStatus rd.1.id
                (fun r =>
                  { r with status := MsgStatus.sent, sent_at := some () }) d2
              cache := cache2
              built := builtN
              trace := t3 ++
                [Event.smtpDispatch, Event.updateSent, Event.commitTx] }
        | Except.error e =>
            { result := Except.error ("Failed to send email: " ++ e)
              db := updateStatus rd.1.id
                (fun r =>
                  { r with status := MsgStatus.failed,
                           error_message := some e }) d2
              cache := cache2
              built := builtN
              trace := t3 ++
                [Event.smtpDispatch, Event.updateFailed, Event.commitTx,
                 Event.rollbackTx] }

end SmtpService

/-- Opaque reference returned by a successful Zoho attachment upload. -/
structure ZohoAttachmentDetails where
  storeName : String
  attachmentPath : String
  attachmentName : String
deriving DecidableEq, Repr

/-- The JSON body posted to the Zoho send endpoint by the provider variant:
fromAddress is credential.name, content is message.html or else message.text,
mailFormat is html when message.html is truthy and plaintext otherwise. -/
structure ZohoSendPayload where
  fromAddress : String
  toAddress : String
  ccAddress : AddrField
  bccAddress : AddrField
  subject : String
  content : Option String
  mailFormat : String
  attachments : List ZohoAttachmentDetails
deriving DecidableEq

/-- The row inserted by the provider variant:
INSERT INTO outgoing_messages (credential_id, type, recipient, subject,
body_text, body_html, status) VALUES (..., pending) RETURNING id.
cc, bcc and reply_to are not in the column list and stay null;
body_text and body_html are message.text or the empty string and
message.html or the empty string. -/
def insertPendingZoho (credentialId : String) (m : EmailMessage)
    (d : Database) : OutgoingRow × Database :=
  let row : OutgoingRow :=
    { id := d.nextId
      credential_id := credentialId
      type := "email"
      recipient := m.«to»
      cc := none
      bcc := none
      reply_to := none
      subject := m.subject
      body_text := some (m.text.getD "")
      body_html := some (m.html.getD "")
      status := MsgStatus.pending
      error_message := none
      sent_at := none }
  (row, { d with messages := d.messages ++ [row], nextId := d.nextId + 1 })

namespace ZohoService

/-- Collaborator outcomes for one call of the provider-variant sendEmail.
tokenReq is the raw OAuth token post (client id, client secret);
accountReq is the raw accounts request, returning the first account id when
the response carries one; uploadReq is the raw multipart upload of one
attachment (account id, token, bytes, filename), returning the parsed
details when the response carries them; sendReq is the raw send post. -/
structure Env where
  insertFail : Option String
  findById : String → Except String (Option ContactService.Credential)
  tokenReq : String → String → Except String String
  accountReq : String → Except String (Option String)
  uploadReq : String → String → List Nat → String →
    Except String (Option ContactService.ZohoAttachmentDetails)
  sendReq : String → String → ContactService.ZohoSendPayload →
    Except String Unit

/-- getZohoAccessToken: posts the client-credentials exchange and wraps any
failure as "Failed to get Zoho access token: ...". -/
def getZohoAccessToken (env : Env) (clientId clientSecret : String) :
    Except String String :=
  match env.tokenReq clientId clientSecret with
  | Except.ok t => Except.ok t
  | Except.error e =>
      Except.error ("Failed to get Zoho access token: " ++ e)

/-- getZohoAccountId: fetches the account list; a response without an account
id raises "No Zoho account found in response"; every failure is wrapped as
"Failed to get Zoho account ID: ...". -/
def getZohoAccountId (env : Env) (accessToken : String) :
    Except String String :=
  match env.accountReq accessToken with
  | Except.ok (some accountId) => Except.ok accountId
  | Except.ok none =>
      Except.error
        "Failed to get Zoho account ID: No Zoho account found in response"
  | Except.error e =>
      Except.error ("Failed to get Zoho account ID: " ++ e)

/-- uploadAttachment: multipart upload of one attachment; a response without
details raises "Invalid upload response"; every failure is wrapped as
"Failed to upload attachment: ...". -/
def uploadAttachment (env : Env) (accountId accessToken : String)
    (file : List Nat) (filename : String) :
    Except String ContactService.ZohoAttachmentDetails :=
  match env.uploadReq accountId accessToken file filename with
  | Except.ok (some d) => Except.ok d
  | Except.ok none =>
      Except.error "Failed to upload attachment: Invalid upload response"
  | Except.error e =>
      Except.error ("Failed to upload attachment: " ++ e)

/-- The Promise.all over message.attachments: every upload is issued and the
whole step fails when any upload fails. -/
def stageAttachments (env : Env) (accountId accessToken : String) :
    List ContactService.Attachment →
      Except String (List ContactService.ZohoAttachmentDetails)
  | [] => Except.ok []
  | a :: rest =>
    match uploadAttachment env accountId accessToken a.bytes a.filename with
    | Except.error e => Except.error e
    | Except.ok d =>
      match stageAttachments env accountId accessToken rest with
      | Except.error e => Except.error e
      | Except.ok ds => Except.ok (d :: ds)

/-- Result of one provider-variant sendEmail call.  The variant never touches
the transporter cache, so no cache field appears. -/
structure Outcome where
  result : Except String Unit
  db : ContactService.Database
  trace : List ContactService.Event
deriving DecidableEq

/-- The provider-variant EmailService.sendEmail.  Control flow of the source:
BEGIN; INSERT pending row; findById with only the not-found check (no type
or SMTP-field check); OAuth token exchange with credential.username and
credential.password; account lookup; staging of every attachment; POST to
the send endpoint; UPDATE to sent; COMMIT.  Every thrown error reaches the
single catch, which issues ROLLBACK and wraps the error as
"Failed to send email: ..." — there is no failed-status recording path. -/
def sendEmail (env : Env) (credentialId : String)
    (m : ContactService.EmailMessage) (db : ContactService.Database) :
    Outcome :=
  match env.insertFail with
  | some e =>
      { result := Except.error ("Failed to send email: " ++ e)
        db := db
        trace := [Event.beginTx, Event.insertPending, Event.rollbackTx] }
  | none =>
    let rd := insertPendingZoho credentialId m db
    let t2 : List Event :=
      [Event.beginTx, Event.insertPending, Event.findCredential]
    match env.findById credentialId with
    | Except.error e =>
        { result := Except.error ("Failed to send email: " ++ e)
          db := db
          trace := t2 ++ [Event.rollbackTx] }
    | Except.ok none =>
        { result := Except.error "Failed to send email: Credential not found"
          db := db
          trace := t2 ++ [Event.rollbackTx] }
    | Except.ok (some c) =>
      match getZohoAccessToken env c.username c.password with
      | Except.error e =>
          { result := Except.error ("Failed to send email: " ++ e)
            db := db
            trace := t2 ++ [Event.oauthToken, Event.rollbackTx] }
      | Except.ok accessToken =>
        let t3 := t2 ++ [Event.oauthToken]
        match getZohoAccountId env accessToken with
        | Except.error e =>
            { result := Except.error ("Failed to send email: " ++ e)
              db := db
              trace := t3 ++ [Event.accountLookup, Event.rollbackTx] }
        | Except.ok accountId =>
          let atts := m.attachments.getD []
          let t4 := t3 ++ [Event.accountLookup] ++
            atts.map (fun _ => Event.stageAttachment)
          match stageAttachments env accountId accessToken atts with
          | Except.error e =>
              { result := Except.error ("Failed to send email: " ++ e)
                db := db
                trace := t4 ++ [Event.rollbackTx] }
          | Except.ok details =>
            let payload : ZohoSendPayload :=
              { fromAddress := c.name
                toAddress := m.«to»
                ccAddress := m.cc
                bccAddress := m.bcc
                subject := m.subject
                content := if strTruthy m.html then m.html else m.text
                mailFormat := if strTruthy m.html then "html" else "plaintext"
                attachments := details }
            match env.sendReq accountId accessToken payload with
            | Except.error e =>
                { result := Except.error ("Failed to send email: " ++ e)
                  db := db
                  trace := t4 ++ [Event.apiDispatch, Event.rollbackTx] }
            | Except.ok _ =>
                { result := Except.ok ()
                  db := updateStatus rd.1.id
                    (fun r =>
                      { r with status := MsgStatus.sent,
                               sent_at := some () }) rd.2
                  trace := t4 ++
                    [Event.apiDispatch, Event.updateSent, Event.commitTx] }

end ZohoService

/-- Collaborator outcomes for one verifyConnection call: the repository
lookup and the verify handshake of the freshly built test transporter. -/
structure VerifyEnv where
  findById : String → Except String (Option Credential)
  verify : Credential → Except String Unit

/-- Result of one verifyConnection call: the boolean returned or error
thrown, together with the transporter cache and the database, which the
method leaves untouched. -/
structure VerifyOutcome where
  result : Except String Bool
  cache : Option String
  db : Database

/-- EmailService.verifyConnection, identical in both variant files: findById
with the not-found, type and SMTP-field checks (these errors propagate
unwrapped), then a disposable test transporter is built and verified; a
handshake failure is wrapped as "Failed to verify email connection: ...".
The method runs no query on the outbox tables and never reads or writes
the transporter cache, so cache and db pass through unchanged. -/
def verifyConnection (env : VerifyEnv) (cache : Option String)
    (credentialId : String) (db : Database) : VerifyOutcome :=
  match env.findById credentialId with
  | Except.error e => { result := Except.error e, cache := cache, db := db }
  | Except.ok none =>
      { result := Except.error "Credential not found"
        cache := cache
        db := db }
  | Except.ok (some c) =>
    if c.type ≠ CommunicationType.email then
      { result := Except.error
          "Invalid credential type: not an email credential"
        cache := cache
        db := db }
    else if strFalsy c.host || natFalsy c.port || c.secure.isNone then
      { result := Except.error
          "Invalid email credential: missing required SMTP configuration"
        cache := cache
        db := db }
    else
      match env.verify c with
      | Except.ok _ => { result := Except.ok true, cache := cache, db := db }
      | Except.error e =>
          { result := Except.error
              ("Failed to verify email connection: " ++ e)
            cache := cache
            db := db }

namespace CredentialRepository

/-- Collaborator outcomes for PostgresCredentialRepository.validateApiKey:
the SELECT api_key query (none when no row matches the id) and the bcrypt
comparison of the supplied key against the stored hash. -/
structure Env where
  queryApiKey : String → Except String (Option String)
  bcryptCompare : String → String → Bool

/-- PostgresCredentialRepository.validateApiKey: SELECT api_key FROM
credentials WHERE id = $1; no row yields false; otherwise the bcrypt compare
of the supplied key against the stored hash is returned; a query failure is
wrapped as "Failed to validate API key: ...". -/
def validateApiKey (env : Env) (id apiKey : String) : Except String Bool :=
  match env.queryApiKey id with
  | Except.error e =>
      Except.error ("Failed to validate API key: " ++ e)
  | Except.ok none => Except.ok false
  | Except.ok (some stored) => Except.ok (env.bcryptCompare apiKey stored)

end CredentialRepository

/-! Concrete fixtures used by witnesses and counterexamples. -/

/-- A complete, valid SMTP email credential. -/
def exCred : Credential :=
  { id := "cred1"
    name := "noreply@example.com"
    type := CommunicationType.email
    apiKey := "key"
    host := some "smtp.example.com"
    port := some 587
    secure := some false
    username := "mailer"
    password := "pw" }

/-- A credential of type sms, stored under id cred2. -/
def smsCred : Credential :=
  { id := "cred2"
    name := "sms-sender"
    type := CommunicationType.sms
    apiKey := "key2"
    host := none
    port := none
    secure := none
    username := "client-id"
    password := "client-secret" }

/-- A plain message without attachments. -/
def exMsg : EmailMessage :=
  { «to» := "user@example.com"
    subject := "Welcome"
    text := some "Hello"
    html := none
    cc := none
    bcc := none
    replyTo := none
    attachments := none }

/-- A message carrying one attachment. -/
def exMsgAtt : EmailMessage :=
  { exMsg with
    attachments := some [⟨"a.txt", [104, 105], some "text/plain"⟩] }

/-- The empty outbox database. -/
def emptyDb : Database := { messages := [], attachments := [], nextId := 0 }

/-- A repository holding exCred under cred1 and smsCred under cred2. -/
def exFindById (id : String) : Except String (Option Credential) :=
  if id = "cred1" then Except.ok (some exCred)
  else if id = "cred2" then Except.ok (some smsCred)
  else Except.ok none

/-- SMTP environment in which every collaborator succeeds. -/
def smtpEnvOk : SmtpService.Env :=
  { insertFail := none
    findById := exFindById
    sendMail := fun _ _ => Except.ok () }

/-- SMTP environment in which the transport rejects the dispatch. -/
def smtpEnvSendFail : SmtpService.Env :=
  { smtpEnvOk with
    sendMail := fun _ _ => Except.error "connect ECONNREFUSED" }

/-- Provider environment in which every collaborator succeeds. -/
def zohoEnvOk : ZohoService.Env :=
  { insertFail := none
    findById := exFindById
    tokenReq := fun _ _ => Except.ok "tok"
    accountReq := fun _ => Except.ok (some "acc")
    uploadReq := fun _ _ _ _ =>
      Except.ok (some ⟨"store", "path", "name"⟩)
    sendReq := fun _ _ _ => Except.ok () }

/-- Provider environment in which the send endpoint rejects the dispatch. -/
def zohoEnvSendFail : ZohoService.Env :=
  { zohoEnvOk with
    sendReq := fun _ _ _ => Except.error "connect ECONNREFUSED" }

/-- Verification environment with a reachable, correctly configured server. -/
def verifyEnvOk : VerifyEnv :=
  { findById := exFindById, verify := fun _ => Except.ok () }

/-- Verification environment with an unreachable host. -/
def verifyEnvFail : VerifyEnv :=
  { findById := exFindById, verify := fun _ => Except.error "connect ETIMEDOUT" }

/-- Repository environment where no credential row matches any id. -/
def repoEnvNone : CredentialRepository.Env :=
  { queryApiKey := fun _ => Except.ok none
    bcryptCompare := fun _ _ => false }

/-- Modelled from the spec, section 4.1: the step number of the algorithm at
which each event belongs.  Step 1 acquires the transaction, step 2 inserts
the pending row, step 3 persists or stages attachments, step 4 resolves the
credential, step 5 resolves the transport (for the provider path, section
4.2 places the OAuth exchange and account-ID lookup in transport
construction), step 6 dispatches, step 7 records the outcome and commits,
and step 8 is the failure rollback. -/
def specStep41 : Event → Nat
  | Event.beginTx => 1
  | Event.insertPending => 2
  | Event.insertAttachmentRow => 3
  | Event.stageAttachment => 3
  | Event.findCredential => 4
  | Event.oauthToken => 5
  | Event.accountLookup => 5
  | Event.buildTransport => 5
  | Event.smtpDispatch => 6
  | Event.apiDispatch => 6
  | Event.updateSent => 7
  | Event.updateFailed => 7
  | Event.commitTx => 7
  | Event.rollbackTx => 8

/-- Adjacent step numbers never decrease. -/
def monoSteps : List Nat → Bool
  | [] => true
  | [_] => true
  | a :: b :: rest => decide (a ≤ b) && monoSteps (b :: rest)

/-- Modelled from the spec: a trace follows the sequence of section 4.1 when
its step numbers never decrease. -/
def inOrder41 (t : List Event) : Prop :=
  monoSteps (t.map specStep41) = true

instance (t : List Event) : Decidable (inOrder41 t) :=
  inferInstanceAs (Decidable (monoSteps (t.map specStep41) = true))

/-- True when every event strictly before the first insert of the pending
row is a local, non-network step: the pending record exists before any
external call is issued. -/
def insertBeforeExternal (t : List Event) : Bool :=
  (t.takeWhile (fun e => !(e == Event.insertPending))).all
    (fun e => !externalEvent e)

/-! Helper lemmas. -/

theorem map_update_of_ne (ms : List OutgoingRow) (mid : Nat)
    (f : OutgoingRow → OutgoingRow) (h : ∀ r ∈ ms, r.id ≠ mid) :
    ms.map (fun r => if r.id = mid then f r else r) = ms := by
  induction ms with
  | nil => rfl
  | cons a l ih =>
    simp only [List.map_cons, List.cons.injEq]
    constructor
    · rw [if_neg (h a (by simp))]
    · exact ih (fun r hr => h r (List.mem_cons_of_mem a hr))

theorem dbWF_ne (d : Database) (h : dbWF d = true) :
    ∀ r ∈ d.messages, r.id ≠ d.nextId := by
  intro r hr
  have hlt := List.all_eq_true.mp h r hr
  simp only [decide_eq_true_eq] at hlt
  omega

/-- Committed state after a successful SMTP-variant send: one new row in
status sent with a sent timestamp, plus the attachment rows. -/
theorem SmtpService.sendEmail_success (env : SmtpService.Env)
    (cache : Option String) (credentialId : String) (m : EmailMessage)
    (db : Database) (c : Credential)
    (hwf : dbWF db = true)
    (hins : env.insertFail = none)
    (hfind : env.findById credentialId = Except.ok (some c))
    (hty : c.type = CommunicationType.email)
    (hfld : (strFalsy c.host || natFalsy c.port || c.secure.isNone) = false)
    (hsend : env.sendMail c m = Except.ok ()) :
    (SmtpService.sendEmail env cache credentialId m db).result = Except.ok ()
    ∧ (SmtpService.sendEmail env cache credentialId m db).db =
        { messages := db.messages ++
            [{ (insertPendingSmtp credentialId m db).1 with
                status := MsgStatus.sent, sent_at := some () }]
          attachments := db.attachments ++
            attachmentRows db.nextId (m.attachments.getD [])
          nextId := db.nextId + 1 }
    ∧ Event.commitTx ∈
        (SmtpService.sendEmail env cache credentialId m db).trace := by
  have hne := dbWF_ne db hwf
  simp only [SmtpService.sendEmail, hins, hfind, hsend, hty, ne_eq,
    not_true_eq_false, if_false, hfld, Bool.false_eq_true, ite_false]
  refine ⟨by simp, ?_,
    by by_cases hc : cache = some credentialId <;> simp [hc]⟩
  simp only [updateStatus, insertPendingSmtp, List.map_append,
    List.map_cons, List.map_nil]
  rw [map_update_of_ne _ _ _ hne]
  simp

/-- Committed state after an SMTP-variant send whose dispatch step fails:
the pending row was updated to status failed with the captured error text,
the transaction committed (the ROLLBACK issued afterwards by the outer catch
is a no-op), and the wrapped error carries the underlying cause. -/
theorem SmtpService.sendEmail_dispatchFail (env : SmtpService.Env)
    (cache : Option String) (credentialId : String) (m : EmailMessage)
    (db : Database) (c : Credential) (e : String)
    (hwf : dbWF db = true)
    (hins : env.insertFail = none)
    (hfind : env.findById credentialId = Except.ok (some c))
    (hty : c.type = CommunicationType.email)
    (hfld : (strFalsy c.host || natFalsy c.port || c.secure.isNone) = false)
    (hsend : env.sendMail c m = Except.error e) :
    (SmtpService.sendEmail env cache credentialId m db).result =
      Except.error ("Failed to send email: " ++ e)
    ∧ (SmtpService.sendEmail env cache credentialId m db).db =
        { messages := db.messages ++
            [{ (insertPendingSmtp credentialId m db).1 with
                status := MsgStatus.failed, error_message := some e }]
          attachments := db.attachments ++
            attachmentRows db.nextId (m.attachments.getD [])
          nextId := db.nextId + 1 }
    ∧ Event.commitTx ∈
        (SmtpService.sendEmail env cache credentialId m db).trace := by
  have hne := dbWF_ne db hwf
  simp only [SmtpService.sendEmail, hins, hfind, hsend, hty, ne_eq,
    not_true_eq_false, if_false, hfld, Bool.false_eq_true, ite_false]
  refine ⟨by simp, ?_,
    by by_cases hc : cache = some credentialId <;> simp [hc]⟩
  simp only [updateStatus, insertPendingSmtp, List.map_append,
    List.map_cons, List.map_nil]
  rw [map_update_of_ne _ _ _ hne]
  simp

/-- An SMTP-variant call whose trace never reaches the dispatch step threw
before dispatch and rolled the whole transaction back: the committed
database is unchanged. -/
theorem SmtpService.sendEmail_noDispatch (env : SmtpService.Env)
    (cache : Option String) (credentialId : String) (m : EmailMessage)
    (db : Database)
    (h : Event.smtpDispatch ∉
      (SmtpService.sendEmail env cache credentialId m db).trace) :
    (∃ e, (SmtpService.sendEmail env cache credentialId m db).result =
      Except.error e)
    ∧ (SmtpService.sendEmail env cache credentialId m db).db = db := by
  unfold SmtpService.sendEmail at *
  rcases hins : env.insertFail with _ | e <;> simp only [hins] at h ⊢
  · rcases hfind : env.findById credentialId with e | oc <;>
      simp only [hfind] at h ⊢
    · simp
    · rcases oc with _ | c <;> simp only [] at h ⊢
      · simp
      · by_cases hty : c.type = CommunicationType.email <;>
          simp only [hty, ne_eq, not_true_eq_false, if_false, ite_true,
            if_true, not_false_eq_true, ite_false] at h ⊢
        · by_cases hfld :
            (strFalsy c.host || natFalsy c.port || c.secure.isNone) = true <;>
            simp only [hfld, Bool.false_eq_true, ite_true, ite_false] at h ⊢
          · simp
          · rcases hsend : env.sendMail c m with u | e <;>
              simp only [hsend] at h ⊢ <;>
              by_cases hc : cache = some credentialId <;>
              simp [hc] at h
        · simp
  · simp

/-- Committed state after a successful provider-variant send: one new row in
status sent with a sent timestamp; message_attachments is untouched on this
path. -/
theorem ZohoService.zohoSend_success (env : ZohoService.Env)
    (credentialId : String) (m : EmailMessage) (db : Database)
    (c : Credential) (tok acc : String)
    (details : List ZohoAttachmentDetails)
    (hwf : dbWF db = true)
    (hins : env.insertFail = none)
    (hfind : env.findById credentialId = Except.ok (some c))
    (htok : env.tokenReq c.username c.password = Except.ok tok)
    (hacc : env.accountReq tok = Except.ok (some acc))
    (hstage : ZohoService.stageAttachments env acc tok
      (m.attachments.getD []) = Except.ok details)
    (hsend : env.sendReq acc tok
      { fromAddress := c.name
        toAddress := m.«to»
        ccAddress := m.cc
        bccAddress := m.bcc
        subject := m.subject
        content := if strTruthy m.html then m.html else m.text
        mailFormat := if strTruthy m.html then "html" else "plaintext"
        attachments := details } = Except.ok ()) :
    (ZohoService.sendEmail env credentialId m db).result = Except.ok ()
    ∧ (ZohoService.sendEmail env credentialId m db).db =
        { messages := db.messages ++
            [{ (insertPendingZoho credentialId m db).1 with
                status := MsgStatus.sent, sent_at := some () }]
          attachments := db.attachments
          nextId := db.nextId + 1 }
    ∧ Event.commitTx ∈ (ZohoService.sendEmail env credentialId m db).trace := by
  have hne := dbWF_ne db hwf
  simp only [ZohoService.sendEmail, ZohoService.getZohoAccessToken,
    ZohoService.getZohoAccountId, hins, hfind, htok, hacc, hstage, hsend]
  refine ⟨by simp, ?_, by simp⟩
  simp only [updateStatus, insertPendingZoho, List.map_append,
    List.map_cons, List.map_nil]
  rw [map_update_of_ne _ _ _ hne]
  simp

/-- A provider-variant send whose dispatch (the POST to the send endpoint)
fails rolls the whole transaction back: no row survives, the pending record
included, and the wrapped error carries the underlying cause. -/
theorem ZohoService.zohoSend_dispatchFail (env : ZohoService.Env)
    (credentialId : String) (m : EmailMessage) (db : Database)
    (c : Credential) (tok acc : String)
    (details : List ZohoAttachmentDetails) (e : String)
    (hins : env.insertFail = none)
    (hfind : env.findById credentialId = Except.ok (some c))
    (htok : env.tokenReq c.username c.password = Except.ok tok)
    (hacc : env.accountReq tok = Except.ok (some acc))
    (hstage : ZohoService.stageAttachments env acc tok
      (m.attachments.getD []) = Except.ok details)
    (hsend : env.sendReq acc tok
      { fromAddress := c.name
        toAddress := m.«to»
        ccAddress := m.cc
        bccAddress := m.bcc
        subject := m.subject
        content := if strTruthy m.html then m.html else m.text
        mailFormat := if strTruthy m.html then "html" else "plaintext"
        attachments := details } = Except.error e) :
    (ZohoService.sendEmail env credentialId m db).result =
      Except.error ("Failed to send email: " ++ e)
    ∧ (ZohoService.sendEmail env credentialId m db).db = db
    ∧ Event.apiDispatch ∈
        (ZohoService.sendEmail env credentialId m db).trace := by
  simp only [ZohoService.sendEmail, ZohoService.getZohoAccessToken,
    ZohoService.getZohoAccountId, hins, hfind, htok, hacc, hstage, hsend]
  refine ⟨?_, ?_, ?_⟩ <;> simp

/-- A provider-variant call whose trace never reaches the dispatch step threw
before dispatch and rolled the whole transaction back: the committed
database is unchanged. -/
theorem ZohoService.zohoSend_noDispatch (env : ZohoService.Env)
    (credentialId : String) (m : EmailMessage) (db : Database)
    (h : Event.apiDispatch ∉
      (ZohoService.sendEmail env credentialId m db).trace) :
    (∃ e, (ZohoService.sendEmail env credentialId m db).result =
      Except.error e)
    ∧ (ZohoService.sendEmail env credentialId m db).db = db := by
  unfold ZohoService.sendEmail at *
  rcases hins : env.insertFail with _ | e <;> simp only [hins] at h ⊢
  · rcases hfind : env.findById credentialId with e | oc <;>
      simp only [hfind] at h ⊢
    · simp
    · rcases oc with _ | c <;> simp only [] at h ⊢
      · simp
      · rcases htok : ZohoService.getZohoAccessToken env c.username c.password
          with e | tok <;> simp only [htok] at h ⊢
        · simp
        · rcases hacc : ZohoService.getZohoAccountId env tok
            with e | acc <;> simp only [hacc] at h ⊢
          · simp
          · rcases hstage : ZohoService.stageAttachments env acc tok
              (m.attachments.getD []) with e | details <;>
              simp only [hstage] at h ⊢
            · simp
            · rcases hsend : env.sendReq acc tok _ with u | e <;>
                simp only [hsend] at h <;> simp at h
  · simp

/-- Every SMTP-variant call either leaves the transporter cache alone and
builds nothing, or ends with the cache holding the requested credential id,
having built a transport exactly when the incoming cache identity differed. -/
theorem SmtpService.cacheSpec (env : SmtpService.Env) (cache : Option String)
    (credentialId : String) (m : EmailMessage) (db : Database) :
    ((SmtpService.sendEmail env cache credentialId m db).built = 0 ∧
     (SmtpService.sendEmail env cache credentialId m db).cache = cache) ∨
    ((SmtpService.sendEmail env cache credentialId m db).built =
       (if cache = some credentialId then 0 else 1) ∧
     (SmtpService.sendEmail env cache credentialId m db).cache =
       some credentialId) := by
  unfold SmtpService.sendEmail
  rcases hins : env.insertFail with _ | e
  · rcases hfind : env.findById credentialId with e | oc
    · simp
    · rcases oc with _ | c
      · simp
      · by_cases hty : c.type = CommunicationType.email
        · by_cases hfld :
            (strFalsy c.host || natFalsy c.port || c.secure.isNone) = true
          · simp [hty, hfld]
          · rcases hsend : env.sendMail c m with u | e <;>
              by_cases hc : cache = some credentialId <;>
              simp [hty, hfld, hc, hsend]
        · simp [hty]
  · simp

/-- An SMTP-variant call that reaches the transport-resolution step (valid
credential) ends with the cache bound to the requested id and builds a
transport exactly when the incoming cache identity differed. -/
theorem SmtpService.reachTransport (env : SmtpService.Env)
    (cache : Option String) (credentialId : String) (m : EmailMessage)
    (db : Database) (c : Credential)
    (hins : env.insertFail = none)
    (hfind : env.findById credentialId = Except.ok (some c))
    (hty : c.type = CommunicationType.email)
    (hfld : (strFalsy c.host || natFalsy c.port || c.secure.isNone) = false) :
    (SmtpService.sendEmail env cache credentialId m db).built =
      (if cache = some credentialId then 0 else 1)
    ∧ (SmtpService.sendEmail env cache credentialId m db).cache =
        some credentialId := by
  simp only [SmtpService.sendEmail, hins, hfind, hty, ne_eq,
    not_true_eq_false, if_false, hfld, Bool.false_eq_true, ite_false]
  rcases env.sendMail c m with u | e <;>
    by_cases hc : cache = some credentialId <;> simp [hc]

/-- A trace that starts with the transaction begin followed immediately by
the pending insert satisfies insertBeforeExternal whatever follows. -/
theorem insertBeforeExternal_cons (rest : List Event) :
    insertBeforeExternal (Event.beginTx :: Event.insertPending :: rest) =
      true := rfl

/-- In every SMTP-variant call the pending row is inserted before any
external network call. -/
theorem SmtpService.sendEmail_insertFirst (env : SmtpService.Env)
    (cache : Option String) (credentialId : String) (m : EmailMessage)
    (db : Database) :
    insertBeforeExternal
      (SmtpService.sendEmail env cache credentialId m db).trace = true := by
  unfold SmtpService.sendEmail
  rcases env.insertFail with _ | e
  · rcases env.findById credentialId with e | oc
    · exact insertBeforeExternal_cons _
    · rcases oc with _ | c
      · exact insertBeforeExternal_cons _
      · by_cases hty : c.type = CommunicationType.email
        · by_cases hfld :
            (strFalsy c.host || natFalsy c.port || c.secure.isNone) = true
          · simp only [hty, ne_eq, not_true_eq_false, if_false, hfld,
              ite_true, ite_false]
            exact insertBeforeExternal_cons _
          · simp only [hty, ne_eq, not_true_eq_false, if_false,
              Bool.not_eq_true] at *
            simp only [hfld, Bool.false_eq_true, ite_false]
            rcases env.sendMail c m with u | e <;>
              by_cases hc : cache = some credentialId <;>
              simp only [hc, ite_true, ite_false, if_true, if_false] <;>
              exact insertBeforeExternal_cons _
        · simp only [hty, ne_eq, not_false_eq_true, if_true, ite_true]
          exact insertBeforeExternal_cons _
  · exact insertBeforeExternal_cons _

/-- In every provider-variant call the pending row is inserted before any
external network call. -/
theorem ZohoService.zohoSend_insertFirst (env : ZohoService.Env)
    (credentialId : String) (m : EmailMessage) (db : Database) :
    insertBeforeExternal
      (ZohoService.sendEmail env credentialId m db).trace = true := by
  unfold ZohoService.sendEmail
  rcases hins : env.insertFail with _ | e
  · rcases hfind : env.findById credentialId with e | oc
    · simp only [hins, hfind]
      exact insertBeforeExternal_cons _
    · rcases oc with _ | c
      · simp only [hins, hfind]
        exact insertBeforeExternal_cons _
      · simp only [hins, hfind]
        rcases htok : ZohoService.getZohoAccessToken env c.username c.password
          with e | tok <;> simp only [htok]
        · exact insertBeforeExternal_cons _
        · rcases hacc : ZohoService.getZohoAccountId env tok with e | acc <;>
            simp only [hacc]
          · exact insertBeforeExternal_cons _
          · rcases hstage : ZohoService.stageAttachments env acc tok
              (m.attachments.getD []) with e | details <;> simp only [hstage]
            · exact insertBeforeExternal_cons _
            · rcases hsend : env.sendReq acc tok _ with u | e <;>
                simp only [hsend] <;> exact insertBeforeExternal_cons _
  · simp only [hins]
    exact insertBeforeExternal_cons _

theorem monoSteps_cons (a : Nat) (l : List Nat) :
    monoSteps (a :: l) = true ↔
      (∀ x ∈ l.head?, a ≤ x) ∧ monoSteps l = true := by
  cases l with
  | nil => simp [monoSteps]
  | cons b l2 => simp [monoSteps]

theorem map_const_replicate {α : Type} (c : Nat) (l : List α) :
    l.map (fun _ => c) = List.replicate l.length c := by
  induction l with
  | nil => rfl
  | cons a l2 ih => simp [List.replicate_succ, ih]

theorem head_replicate_append (n : Nat) (l : List Nat) (k : Nat)
    (hh : ∀ x ∈ l.head?, k ≤ x) (hk : k ≤ 3) :
    ∀ x ∈ (List.replicate n 3 ++ l).head?, k ≤ x := by
  cases n with
  | zero => simpa using hh
  | succ n2 =>
    rw [List.replicate_succ, List.cons_append]
    simpa using hk

theorem monoSteps_replicate3 (n : Nat) (l : List Nat)
    (h : monoSteps l = true) (hh : ∀ x ∈ l.head?, 3 ≤ x) :
    monoSteps (List.replicate n 3 ++ l) = true := by
  induction n with
  | zero => simpa using h
  | succ k ih =>
    rw [List.replicate_succ, List.cons_append, monoSteps_cons]
    exact ⟨head_replicate_append k l 3 hh (le_refl 3), ih⟩

/-- The step-number pattern common to every SMTP-variant trace: begin,
pending insert, the attachment inserts, then the rest of the algorithm
starting at credential resolution. -/
theorem monoSteps_shape (n : Nat) (l : List Nat)
    (h : monoSteps (4 :: l) = true) :
    monoSteps (1 :: 2 :: (List.replicate n 3 ++ 4 :: l)) = true := by
  rw [monoSteps_cons]
  refine ⟨by simp, ?_⟩
  rw [monoSteps_cons]
  refine ⟨?_, monoSteps_replicate3 n (4 :: l) h (by simp)⟩
  exact head_replicate_append n (4 :: l) 2 (by simp) (by omega)

/-- Every SMTP-variant call executes its steps in the order of section 4.1:
the step numbers along the trace never decrease. -/
theorem SmtpService.sendEmail_inOrder41 (env : SmtpService.Env)
    (cache : Option String) (credentialId : String) (m : EmailMessage)
    (db : Database) :
    inOrder41 (SmtpService.sendEmail env cache credentialId m db).trace := by
  unfold inOrder41
  unfold SmtpService.sendEmail
  rcases hins : env.insertFail with _ | e
  · rcases hfind : env.findById credentialId with e | oc
    · simp only [hins, hfind, List.map_append, List.map_cons, List.map_nil,
        List.map_map, Function.comp_def, specStep41, map_const_replicate,
        List.append_assoc, List.cons_append, List.nil_append]
      exact monoSteps_shape _ [8] (by decide)
    · rcases oc with _ | c
      · simp only [hins, hfind, List.map_append, List.map_cons,
          List.map_nil, List.map_map, Function.comp_def, specStep41,
          map_const_replicate, List.append_assoc, List.cons_append,
          List.nil_append]
        exact monoSteps_shape _ [8] (by decide)
      · simp only [hins, hfind]
        by_cases hty : c.type = CommunicationType.email
        · by_cases hfld :
            (strFalsy c.host || natFalsy c.port || c.secure.isNone) = true
          · simp only [hty, ne_eq, not_true_eq_false, if_false, hfld,
              ite_true, ite_false, List.map_append, List.map_cons,
              List.map_nil, List.map_map, Function.comp_def, specStep41,
              map_const_replicate, List.append_assoc, List.cons_append,
              List.nil_append]
            exact monoSteps_shape _ [8] (by decide)
          · rcases hsend : env.sendMail c m with u | e <;>
              by_cases hc : cache = some credentialId <;>
              simp only [hty, ne_eq, not_true_eq_false, if_false, hfld,
                Bool.false_eq_true, ite_true, ite_false, hsend, hc,
                List.map_append, List.map_cons, List.map_nil, List.map_map,
                Function.comp_def, specStep41, map_const_replicate,
                List.append_assoc, List.cons_append, List.nil_append] <;>
              first
              | exact monoSteps_shape _ [6, 7, 7] (by decide)
              | exact monoSteps_shape _ [5, 6, 7, 7] (by decide)
              | exact monoSteps_shape _ [6, 7, 7, 8] (by decide)
              | exact monoSteps_shape _ [5, 6, 7, 7, 8] (by decide)
        · simp only [hty, ne_eq, not_false_eq_true, if_true, ite_true,
            List.map_append, List.map_cons, List.map_nil, List.map_map,
            Function.comp_def, specStep41, map_const_replicate,
            List.append_assoc, List.cons_append, List.nil_append]
          exact monoSteps_shape _ [8] (by decide)
  · simp only [hins]
    decide

/-- C7: every verifyConnection call builds a disposable transport for the
handshake and leaves the cached transport identity and the outbox database
untouched; with a valid SMTP credential it returns true when the handshake
succeeds and fails with the wrapped verification error when the host is
unreachable. -/
theorem C7_verifyConnection_contract :
    ∀ (env : VerifyEnv) (cache : Option String) (credentialId : String)
      (db : Database) (c : Credential),
    ((verifyConnection env cache credentialId db).cache = cache ∧
     (verifyConnection env cache credentialId db).db = db) ∧
    (env.findById credentialId = Except.ok (some c) →
     c.type = CommunicationType.email →
     (strFalsy c.host || natFalsy c.port || c.secure.isNone) = false →
     ((env.verify c = Except.ok () →
        (verifyConnection env cache credentialId db).result =
          Except.ok true) ∧
      (∀ e, env.verify c = Except.error e →
        (verifyConnection env cache credentialId db).result =
          Except.error ("Failed to verify email connection: " ++ e)))) := by
  intro env cache credentialId db c
  constructor
  · unfold verifyConnection
    rcases hfind : env.findById credentialId with e | oc
    · simp [hfind]
    · rcases oc with _ | c2
      · simp [hfind]
      · by_cases hty : c2.type = CommunicationType.email
        · by_cases hfld :
            (strFalsy c2.host || natFalsy c2.port || c2.secure.isNone) = true
          · simp [hfind, hty, hfld]
          · rcases hver : env.verify c2 with u | e <;>
              simp [hfind, hty, hfld, hver]
        · simp [hfind, hty]
  · intro hfind hty hfld
    constructor
    · intro hver
      simp only [verifyConnection, hfind, hty, ne_eq, not_true_eq_false,
        if_false, hfld, Bool.false_eq_true, ite_false, hver]
    · intro e hver
      simp only [verifyConnection, hfind, hty, ne_eq, not_true_eq_false,
        if_false, hfld, Bool.false_eq_true, ite_false, hver]

/-- Witness for C7 at the concrete fixtures: a reachable server yields true,
an unreachable host yields the wrapped verification error, and cache and
database are untouched in both runs. -/
theorem C7_witness :
    (verifyConnection verifyEnvOk (some "old") "cred1" emptyDb).result =
      Except.ok true ∧
    (verifyConnection verifyEnvFail (some "old") "cred1" emptyDb).result =
      Except.error "Failed to verify email connection: connect ETIMEDOUT" ∧
    (verifyConnection verifyEnvFail (some "old") "cred1" emptyDb).cache =
      some "old" ∧
    (verifyConnection verifyEnvFail (some "old") "cred1" emptyDb).db =
      emptyDb := by
  refine ⟨?_, ?_, ?_, ?_⟩
  · exact
      ((C7_verifyConnection_contract verifyEnvOk (some "old") "cred1" emptyDb
        exCred).2 (by rfl) (by rfl) (by rfl)).1 (by rfl)
  · exact
      ((C7_verifyConnection_contract verifyEnvFail (some "old") "cred1"
        emptyDb exCred).2 (by rfl) (by rfl) (by rfl)).2
        "connect ETIMEDOUT" (by rfl)
  · exact
      (C7_verifyConnection_contract verifyEnvFail (some "old") "cred1"
        emptyDb exCred).1.1
  · exact
      (C7_verifyConnection_contract verifyEnvFail (some "old") "cred1"
        emptyDb exCred).1.2

/-- C9: validateApiKey answers false when no credential row carries the
requested id, for every supplied key, and it raises only when the
underlying SELECT itself fails. -/
theorem C9_validateApiKey_absent_false :
    ∀ (env : CredentialRepository.Env) (id apiKey : String),
    (env.queryApiKey id = Except.ok none →
      CredentialRepository.validateApiKey env id apiKey = Except.ok false) ∧
    (∀ e, CredentialRepository.validateApiKey env id apiKey =
        Except.error e →
      ∃ e2, env.queryApiKey id = Except.error e2) := by
  intro env id apiKey
  constructor
  · intro h
    simp [CredentialRepository.validateApiKey, h]
  · intro e h
    unfold CredentialRepository.validateApiKey at h
    rcases hq : env.queryApiKey id with e2 | oc
    · exact ⟨e2, rfl⟩
    · rcases oc with _ | stored <;> simp only [hq] at h <;> simp at h

/-- Witness for C9: with no matching row, an arbitrary key validates to
false. -/
theorem C9_witness :
    CredentialRepository.validateApiKey repoEnvNone "missing" "any-key" =
      Except.ok false :=
  (C9_validateApiKey_absent_false repoEnvNone "missing" "any-key").1 (by rfl)

/-- C10: verifyConnection never returns false: every run returns true or
raises an error. -/
theorem C10_verifyConnection_never_false :
    ∀ (env : VerifyEnv) (cache : Option String) (credentialId : String)
      (db : Database),
    (verifyConnection env cache credentialId db).result ≠
      Except.ok false := by
  intro env cache credentialId db
  unfold verifyConnection
  rcases hfind : env.findById credentialId with e | oc
  · simp [hfind]
  · rcases oc with _ | c2
    · simp [hfind]
    · by_cases hty : c2.type = CommunicationType.email
      · by_cases hfld :
          (strFalsy c2.host || natFalsy c2.port || c2.secure.isNone) = true
        · simp [hfind, hty, hfld]
        · rcases hver : env.verify c2 with u | e <;>
            simp [hfind, hty, hfld, hver]
      · simp [hfind, hty]

/-- C1 counterexample: in the provider-variant sendEmail a failing dispatch
(the POST to the send endpoint is attempted and rejected) leaves zero rows:
the call rolls back instead of committing a failed row, so the claim that
every sendEmail dispatch failure commits exactly one failed row is false. -/
theorem C1_counterexample :
    (ZohoService.sendEmail zohoEnvSendFail "cred1" exMsg emptyDb).trace.contains
      Event.apiDispatch = true ∧
    (ZohoService.sendEmail zohoEnvSendFail "cred1" exMsg emptyDb).result =
      Except.error "Failed to send email: connect ECONNREFUSED" ∧
    (ZohoService.sendEmail zohoEnvSendFail "cred1" exMsg emptyDb).db.messages =
      [] := by
  decide

/-- C1 (amended to the SMTP variant): when the SMTP dispatch step fails, the
pending row is updated to status failed with the captured error text, the
transaction commits so the failure record survives, and the error is
re-raised wrapped around the underlying cause. -/
theorem C1_smtp_failed_row_committed :
    ∀ (env : SmtpService.Env) (cache : Option String) (credentialId : String)
      (m : EmailMessage) (db : Database) (c : Credential) (e : String),
    dbWF db = true →
    env.insertFail = none →
    env.findById credentialId = Except.ok (some c) →
    c.type = CommunicationType.email →
    (strFalsy c.host || natFalsy c.port || c.secure.isNone) = false →
    env.sendMail c m = Except.error e →
    (SmtpService.sendEmail env cache credentialId m db).result =
      Except.error ("Failed to send email: " ++ e)
    ∧ (SmtpService.sendEmail env cache credentialId m db).db =
        { messages := db.messages ++
            [{ (insertPendingSmtp credentialId m db).1 with
                status := MsgStatus.failed, error_message := some e }]
          attachments := db.attachments ++
            attachmentRows db.nextId (m.attachments.getD [])
          nextId := db.nextId + 1 }
    ∧ Event.commitTx ∈
        (SmtpService.sendEmail env cache credentialId m db).trace := by
  intro env cache credentialId m db c e hwf hins hfind hty hfld hsend
  exact SmtpService.sendEmail_dispatchFail env cache credentialId m db c e
    hwf hins hfind hty hfld hsend

/-- Witness for the amended C1: a concrete SMTP run with a rejecting
transport ends with one committed failed row carrying the error text and the
wrapped error surfaced. -/
theorem C1_witness :
    (SmtpService.sendEmail smtpEnvSendFail none "cred1" exMsg emptyDb).result
      = Except.error "Failed to send email: connect ECONNREFUSED" ∧
    (SmtpService.sendEmail smtpEnvSendFail none "cred1" exMsg
      emptyDb).db.messages.length = 1 := by
  have h := C1_smtp_failed_row_committed smtpEnvSendFail none "cred1" exMsg
    emptyDb exCred "connect ECONNREFUSED" (by decide) (by rfl) (by rfl)
    (by rfl) (by decide) (by rfl)
  exact ⟨h.1, by rw [h.2.1]; decide⟩

/-- C2: any sendEmail run of either variant that never reaches the dispatch
step surfaces an error and leaves the committed outbox exactly as it was:
the whole transaction is rolled back. -/
theorem C2_predispatch_failure_rolls_back :
    (∀ (env : SmtpService.Env) (cache : Option String)
       (credentialId : String) (m : EmailMessage) (db : Database),
      Event.smtpDispatch ∉
        (SmtpService.sendEmail env cache credentialId m db).trace →
      (∃ e, (SmtpService.sendEmail env cache credentialId m db).result =
        Except.error e) ∧
      (SmtpService.sendEmail env cache credentialId m db).db = db) ∧
    (∀ (env : ZohoService.Env) (credentialId : String) (m : EmailMessage)
       (db : Database),
      Event.apiDispatch ∉
        (ZohoService.sendEmail env credentialId m db).trace →
      (∃ e, (ZohoService.sendEmail env credentialId m db).result =
        Except.error e) ∧
      (ZohoService.sendEmail env credentialId m db).db = db) :=
  ⟨fun env cache credentialId m db h =>
      SmtpService.sendEmail_noDispatch env cache credentialId m db h,
   fun env credentialId m db h =>
      ZohoService.zohoSend_noDispatch env credentialId m db h⟩

/-- Witness for C2: a send against an unknown credential id creates no rows
in either variant. -/
theorem C2_witness :
    (SmtpService.sendEmail smtpEnvOk none "nope" exMsg emptyDb).db = emptyDb ∧
    (ZohoService.sendEmail zohoEnvOk "nope" exMsg emptyDb).db = emptyDb :=
  ⟨(C2_predispatch_failure_rolls_back.1 smtpEnvOk none "nope" exMsg emptyDb
      (by decide)).2,
   (C2_predispatch_failure_rolls_back.2 zohoEnvOk "nope" exMsg emptyDb
      (by decide)).2⟩

/-- C3: with valid inputs and a successful dispatch, each variant commits
exactly one new OutgoingMessage row, in status sent with a set sent
timestamp. -/
theorem C3_dispatch_success_one_sent_row :
    (∀ (env : SmtpService.Env) (cache : Option String)
       (credentialId : String) (m : EmailMessage) (db : Database)
       (c : Credential),
      dbWF db = true →
      env.insertFail = none →
      env.findById credentialId = Except.ok (some c) →
      c.type = CommunicationType.email →
      (strFalsy c.host || natFalsy c.port || c.secure.isNone) = false →
      env.sendMail c m = Except.ok () →
      (SmtpService.sendEmail env cache credentialId m db).result =
        Except.ok ()
      ∧ (SmtpService.sendEmail env cache credentialId m db).db =
          { messages := db.messages ++
              [{ (insertPendingSmtp credentialId m db).1 with
                  status := MsgStatus.sent, sent_at := some () }]
            attachments := db.attachments ++
              attachmentRows db.nextId (m.attachments.getD [])
            nextId := db.nextId + 1 }
      ∧ Event.commitTx ∈
          (SmtpService.sendEmail env cache credentialId m db).trace) ∧
    (∀ (env : ZohoService.Env) (credentialId : String) (m : EmailMessage)
       (db : Database) (c : Credential) (tok acc : String)
       (details : List ZohoAttachmentDetails),
      dbWF db = true →
      env.insertFail = none →
      env.findById credentialId = Except.ok (some c) →
      env.tokenReq c.username c.password = Except.ok tok →
      env.accountReq tok = Except.ok (some acc) →
      ZohoService.stageAttachments env acc tok (m.attachments.getD []) =
        Except.ok details →
      env.sendReq acc tok
        { fromAddress := c.name
          toAddress := m.«to»
          ccAddress := m.cc
          bccAddress := m.bcc
          subject := m.subject
          content := if strTruthy m.html then m.html else m.text
          mailFormat := if strTruthy m.html then "html" else "plaintext"
          attachments := details } = Except.ok () →
      (ZohoService.sendEmail env credentialId m db).result = Except.ok ()
      ∧ (ZohoService.sendEmail env credentialId m db).db =
          { messages := db.messages ++
              [{ (insertPendingZoho credentialId m db).1 with
                  status := MsgStatus.sent, sent_at := some () }]
            attachments := db.attachments
            nextId := db.nextId + 1 }
      ∧ Event.commitTx ∈
          (ZohoService.sendEmail env credentialId m db).trace) :=
  ⟨fun env cache credentialId m db c hwf hins hfind hty hfld hsend =>
      SmtpService.sendEmail_success env cache credentialId m db c hwf hins
        hfind hty hfld hsend,
   fun env credentialId m db c tok acc details hwf hins hfind htok hacc
       hstage hsend =>
      ZohoService.zohoSend_success env credentialId m db c tok acc details
        hwf hins hfind htok hacc hstage hsend⟩

/-- Witness for C3: concrete successful sends in both variants leave one
committed sent row. -/
theorem C3_witness :
    (SmtpService.sendEmail smtpEnvOk none "cred1" exMsg emptyDb).result =
      Except.ok () ∧
    (SmtpService.sendEmail smtpEnvOk none "cred1" exMsg
      emptyDb).db.messages.length = 1 ∧
    (ZohoService.sendEmail zohoEnvOk "cred1" exMsg emptyDb).result =
      Except.ok () ∧
    (ZohoService.sendEmail zohoEnvOk "cred1" exMsg
      emptyDb).db.messages.length = 1 := by
  have hs := C3_dispatch_success_one_sent_row.1 smtpEnvOk none "cred1" exMsg
    emptyDb exCred (by decide) (by rfl) (by rfl) (by rfl) (by decide)
    (by rfl)
  have hz := C3_dispatch_success_one_sent_row.2 zohoEnvOk "cred1" exMsg
    emptyDb exCred "tok" "acc" [] (by decide) (by rfl) (by rfl) (by rfl)
    (by rfl) (by rfl) (by rfl)
  exact ⟨hs.1, by rw [hs.2.1]; decide, hz.1, by rw [hz.2.1]; decide⟩

/-- C4 counterexample: the provider variant resolves a credential of type
sms (not email) without raising InvalidCredentialType and proceeds to
dispatch: the call succeeds and the dispatch is attempted, refuting the
claim for sendEmail at this input. -/
theorem C4_counterexample :
    exFindById "cred2" = Except.ok (some smsCred) ∧
    smsCred.type ≠ CommunicationType.email ∧
    (ZohoService.sendEmail zohoEnvOk "cred2" exMsg emptyDb).result =
      Except.ok () ∧
    Event.apiDispatch ∈
      (ZohoService.sendEmail zohoEnvOk "cred2" exMsg emptyDb).trace := by
  decide

/-- C4 (amended): the SMTP variant raises the not-found, wrong-type and
incomplete-credential errors at resolution, attempting no dispatch and
committing nothing in each case; the provider variant performs only the
not-found check at resolution. -/
theorem C4_credential_resolution_checks :
    (∀ (env : SmtpService.Env) (cache : Option String)
       (credentialId : String) (m : EmailMessage) (db : Database),
      env.insertFail = none →
      env.findById credentialId = Except.ok none →
      (SmtpService.sendEmail env cache credentialId m db).result =
        Except.error "Failed to send email: Credential not found" ∧
      Event.smtpDispatch ∉
        (SmtpService.sendEmail env cache credentialId m db).trace ∧
      (SmtpService.sendEmail env cache credentialId m db).db = db) ∧
    (∀ (env : SmtpService.Env) (cache : Option String)
       (credentialId : String) (m : EmailMessage) (db : Database)
       (c : Credential),
      env.insertFail = none →
      env.findById credentialId = Except.ok (some c) →
      c.type ≠ CommunicationType.email →
      (SmtpService.sendEmail env cache credentialId m db).result =
        Except.error
          "Failed to send email: Invalid credential type: not an email credential" ∧
      Event.smtpDispatch ∉
        (SmtpService.sendEmail env cache credentialId m db).trace ∧
      (SmtpService.sendEmail env cache credentialId m db).db = db) ∧
    (∀ (env : SmtpService.Env) (cache : Option String)
       (credentialId : String) (m : EmailMessage) (db : Database)
       (c : Credential),
      env.insertFail = none →
      env.findById credentialId = Except.ok (some c) →
      c.type = CommunicationType.email →
      (strFalsy c.host || natFalsy c.port || c.secure.isNone) = true →
      (SmtpService.sendEmail env cache credentialId m db).result =
        Except.error
          "Failed to send email: Invalid email credential: missing required SMTP configuration" ∧
      Event.smtpDispatch ∉
        (SmtpService.sendEmail env cache credentialId m db).trace ∧
      (SmtpService.sendEmail env cache credentialId m db).db = db) ∧
    (∀ (env : ZohoService.Env) (credentialId : String) (m : EmailMessage)
       (db : Database),
      env.insertFail = none →
      env.findById credentialId = Except.ok none →
      (ZohoService.sendEmail env credentialId m db).result =
        Except.error "Failed to send email: Credential not found" ∧
      Event.apiDispatch ∉
        (ZohoService.sendEmail env credentialId m db).trace ∧
      (ZohoService.sendEmail env credentialId m db).db = db) := by
  refine ⟨?_, ?_, ?_, ?_⟩
  · intro env cache credentialId m db hins hfind
    simp only [SmtpService.sendEmail, hins, hfind]
    refine ⟨by simp, ?_, by simp⟩
    simp [List.mem_append, List.mem_map]
  · intro env cache credentialId m db c hins hfind hty
    simp only [SmtpService.sendEmail, hins, hfind, hty, ne_eq,
      not_false_eq_true, if_true, ite_true]
    refine ⟨by simp, ?_, by simp⟩
    simp [List.mem_append, List.mem_map]
  · intro env cache credentialId m db c hins hfind hty hfld
    simp only [SmtpService.sendEmail, hins, hfind, hty, ne_eq,
      not_true_eq_false, if_false, hfld, ite_true, ite_false]
    refine ⟨by simp, ?_, by simp⟩
    simp [List.mem_append, List.mem_map]
  · intro env credentialId m db hins hfind
    simp only [ZohoService.sendEmail, hins, hfind]
    refine ⟨by simp, ?_, by simp⟩
    simp [List.mem_append]

/-- Witness for the amended C4: concrete runs hitting the three SMTP
resolution errors and the provider not-found error, each with no dispatch
and no committed rows. -/
theorem C4_witness :
    (SmtpService.sendEmail smtpEnvOk none "nope" exMsg emptyDb).result =
      Except.error "Failed to send email: Credential not found" ∧
    (SmtpService.sendEmail smtpEnvOk none "cred2" exMsg emptyDb).result =
      Except.error
        "Failed to send email: Invalid credential type: not an email credential" ∧
    (ZohoService.sendEmail zohoEnvOk "nope" exMsg emptyDb).result =
      Except.error "Failed to send email: Credential not found" ∧
    (ZohoService.sendEmail zohoEnvOk "nope" exMsg emptyDb).db = emptyDb :=
  ⟨(C4_credential_resolution_checks.1 smtpEnvOk none "nope" exMsg emptyDb
      (by rfl) (by rfl)).1,
   (C4_credential_resolution_checks.2.1 smtpEnvOk none "cred2" exMsg emptyDb
      smsCred (by rfl) (by rfl) (by decide)).1,
   (C4_credential_resolution_checks.2.2.2 zohoEnvOk "nope" exMsg emptyDb
      (by rfl) (by rfl)).1,
   (C4_credential_resolution_checks.2.2.2 zohoEnvOk "nope" exMsg emptyDb
      (by rfl) (by rfl)).2.2⟩

/-- C5 counterexample: a provider-variant send with one attachment resolves
the credential (step 4) and performs the OAuth and account lookups (step 5)
before staging the attachment (step 3), so the trace does not follow the
literal step sequence of section 4.1. -/
theorem C5_counterexample :
    ¬ inOrder41
      (ZohoService.sendEmail zohoEnvOk "cred1" exMsgAtt emptyDb).trace := by
  decide

/-- C5 (amended): in both variants the pending row is inserted before any
external network call; the SMTP variant moreover executes its steps in the
exact sequence of section 4.1.  The provider variant deviates only by
resolving the credential and OAuth material before staging attachments. -/
theorem C5_insert_first_and_smtp_order :
    (∀ (env : SmtpService.Env) (cache : Option String)
       (credentialId : String) (m : EmailMessage) (db : Database),
      insertBeforeExternal
        (SmtpService.sendEmail env cache credentialId m db).trace = true) ∧
    (∀ (env : ZohoService.Env) (credentialId : String) (m : EmailMessage)
       (db : Database),
      insertBeforeExternal
        (ZohoService.sendEmail env credentialId m db).trace = true) ∧
    (∀ (env : SmtpService.Env) (cache : Option String)
       (credentialId : String) (m : EmailMessage) (db : Database),
      inOrder41 (SmtpService.sendEmail env cache credentialId m db).trace) :=
  ⟨SmtpService.sendEmail_insertFirst, ZohoService.zohoSend_insertFirst,
   SmtpService.sendEmail_inOrder41⟩

/-- A single SMTP-variant call constructs at most one transport. -/
theorem SmtpService.built_le_one (env : SmtpService.Env)
    (cache : Option String) (credentialId : String) (m : EmailMessage)
    (db : Database) :
    (SmtpService.sendEmail env cache credentialId m db).built ≤ 1 := by
  rcases SmtpService.cacheSpec env cache credentialId m db with
    ⟨hb, _⟩ | ⟨hb, _⟩
  · rw [hb]
    omega
  · rw [hb]
    split <;> omega

/-- A call whose incoming cache identity already equals the requested id
never constructs a transport. -/
theorem SmtpService.hit_no_build (env : SmtpService.Env)
    (cache : Option String) (credentialId : String) (m : EmailMessage)
    (db : Database) (h : cache = some credentialId) :
    (SmtpService.sendEmail env cache credentialId m db).built = 0 := by
  rcases SmtpService.cacheSpec env cache credentialId m db with
    ⟨hb, _⟩ | ⟨hb, _⟩
  · exact hb
  · rw [hb, if_pos h]

/-- A call that constructed a transport leaves the cache bound to the
requested id. -/
theorem SmtpService.build_sets_cache (env : SmtpService.Env)
    (cache : Option String) (credentialId : String) (m : EmailMessage)
    (db : Database)
    (h : (SmtpService.sendEmail env cache credentialId m db).built ≠ 0) :
    (SmtpService.sendEmail env cache credentialId m db).cache =
      some credentialId := by
  rcases SmtpService.cacheSpec env cache credentialId m db with
    ⟨hb, hc⟩ | ⟨hb, hc⟩
  · exact absurd hb h
  · exact hc

/-- C6: the transport resolver keeps one cached transport keyed by
credential identity: a matching cache is reused without reconstruction, two
consecutive calls with the same credential id construct at most one
transport in total, and a call with a different credential id reconstructs
and replaces the cache. -/
theorem C6_transport_cache_single_slot :
    (∀ (env : SmtpService.Env) (cache : Option String)
       (credentialId : String) (m : EmailMessage) (db : Database)
       (c : Credential),
      env.insertFail = none →
      env.findById credentialId = Except.ok (some c) →
      c.type = CommunicationType.email →
      (strFalsy c.host || natFalsy c.port || c.secure.isNone) = false →
      cache = some credentialId →
      (SmtpService.sendEmail env cache credentialId m db).built = 0 ∧
      (SmtpService.sendEmail env cache credentialId m db).cache = cache) ∧
    (∀ (env1 env2 : SmtpService.Env) (cache : Option String)
       (credentialId : String) (m1 m2 : EmailMessage) (db : Database),
      (SmtpService.sendEmail env1 cache credentialId m1 db).built +
      (SmtpService.sendEmail env2
        (SmtpService.sendEmail env1 cache credentialId m1 db).cache
        credentialId m2
        (SmtpService.sendEmail env1 cache credentialId m1 db).db).built
        ≤ 1) ∧
    (∀ (env : SmtpService.Env) (cache : Option String)
       (credentialId : String) (m : EmailMessage) (db : Database)
       (c : Credential),
      env.insertFail = none →
      env.findById credentialId = Except.ok (some c) →
      c.type = CommunicationType.email →
      (strFalsy c.host || natFalsy c.port || c.secure.isNone) = false →
      cache ≠ some credentialId →
      (SmtpService.sendEmail env cache credentialId m db).built = 1 ∧
      (SmtpService.sendEmail env cache credentialId m db).cache =
        some credentialId) := by
  refine ⟨?_, ?_, ?_⟩
  · intro env cache credentialId m db c hins hfind hty hfld hcache
    have h := SmtpService.reachTransport env cache credentialId m db c hins
      hfind hty hfld
    rw [if_pos hcache] at h
    exact ⟨h.1, by rw [h.2, hcache]⟩
  · intro env1 env2 cache credentialId m1 m2 db
    by_cases h1 :
      (SmtpService.sendEmail env1 cache credentialId m1 db).built = 0
    · rw [h1]
      simpa using SmtpService.built_le_one env2
        (SmtpService.sendEmail env1 cache credentialId m1 db).cache
        credentialId m2
        (SmtpService.sendEmail env1 cache credentialId m1 db).db
    · have hc1 := SmtpService.build_sets_cache env1 cache credentialId m1 db
        h1
      have h2 := SmtpService.hit_no_build env2
        (SmtpService.sendEmail env1 cache credentialId m1 db).cache
        credentialId m2
        (SmtpService.sendEmail env1 cache credentialId m1 db).db hc1
      have hle := SmtpService.built_le_one env1 cache credentialId m1 db
      omega
  · intro env cache credentialId m db c hins hfind hty hfld hcache
    have h := SmtpService.reachTransport env cache credentialId m db c hins
      hfind hty hfld
    rw [if_neg hcache] at h
    exact h

/-- Witness for C6: with a warm cache the call builds nothing and keeps the
cache; with a different cached identity it rebuilds and replaces it. -/
theorem C6_witness :
    ((SmtpService.sendEmail smtpEnvOk (some "cred1") "cred1" exMsg
        emptyDb).built = 0 ∧
     (SmtpService.sendEmail smtpEnvOk (some "cred1") "cred1" exMsg
        emptyDb).cache = some "cred1") ∧
    ((SmtpService.sendEmail smtpEnvOk (some "other") "cred1" exMsg
        emptyDb).built = 1 ∧
     (SmtpService.sendEmail smtpEnvOk (some "other") "cred1" exMsg
        emptyDb).cache = some "cred1") :=
  ⟨(C6_transport_cache_single_slot.1 smtpEnvOk (some "cred1") "cred1" exMsg
      emptyDb exCred (by rfl) (by rfl) (by rfl) (by decide) (by rfl)),
   (C6_transport_cache_single_slot.2.2 smtpEnvOk (some "other") "cred1"
      exMsg emptyDb exCred (by rfl) (by rfl) (by rfl) (by decide)
      (by decide))⟩

/-- C8 counterexample: at the same credential, message and initial database,
with the transport rejecting the dispatch with the same error in both
variants, the two implementations end in different committed states: the
SMTP variant keeps one failed row, the provider variant keeps none. -/
theorem C8_counterexample :
    (SmtpService.sendEmail smtpEnvSendFail none "cred1" exMsg
      emptyDb).db.messages.length = 1 ∧
    (ZohoService.sendEmail zohoEnvSendFail "cred1" exMsg
      emptyDb).db.messages.length = 0 ∧
    (SmtpService.sendEmail smtpEnvSendFail none "cred1" exMsg emptyDb).db ≠
      (ZohoService.sendEmail zohoEnvSendFail "cred1" exMsg emptyDb).db := by
  decide

/-- C8 (amended): the variants agree on the success path, each committing
exactly one sent row, and both surface pre-dispatch failures with a full
rollback, but they are not equivalent: on dispatch failure the SMTP variant
commits one failed row while the provider variant rolls back to zero rows
(and the provider variant also skips the type and SMTP-field checks). -/
theorem C8_variants_success_agree_failure_diverge :
    (∀ (env : SmtpService.Env) (cache : Option String)
       (credentialId : String) (m : EmailMessage) (db : Database)
       (c : Credential),
      dbWF db = true →
      env.insertFail = none →
      env.findById credentialId = Except.ok (some c) →
      c.type = CommunicationType.email →
      (strFalsy c.host || natFalsy c.port || c.secure.isNone) = false →
      env.sendMail c m = Except.ok () →
      (SmtpService.sendEmail env cache credentialId m db).result =
        Except.ok ()
      ∧ (SmtpService.sendEmail env cache credentialId m db).db.messages =
          db.messages ++
            [{ (insertPendingSmtp credentialId m db).1 with
                status := MsgStatus.sent, sent_at := some () }]) ∧
    (∀ (env : ZohoService.Env) (credentialId : String) (m : EmailMessage)
       (db : Database) (c : Credential) (tok acc : String)
       (details : List ZohoAttachmentDetails),
      dbWF db = true →
      env.insertFail = none →
      env.findById credentialId = Except.ok (some c) →
      env.tokenReq c.username c.password = Except.ok tok →
      env.accountReq tok = Except.ok (some acc) →
      ZohoService.stageAttachments env acc tok (m.attachments.getD []) =
        Except.ok details →
      env.sendReq acc tok
        { fromAddress := c.name
          toAddress := m.«to»
          ccAddress := m.cc
          bccAddress := m.bcc
          subject := m.subject
          content := if strTruthy m.html then m.html else m.text
          mailFormat := if strTruthy m.html then "html" else "plaintext"
          attachments := details } = Except.ok () →
      (ZohoService.sendEmail env credentialId m db).result = Except.ok ()
      ∧ (ZohoService.sendEmail env credentialId m db).db.messages =
          db.messages ++
            [{ (insertPendingZoho credentialId m db).1 with
                status := MsgStatus.sent, sent_at := some () }]) ∧
    (∀ (env : SmtpService.Env) (cache : Option String)
       (credentialId : String) (m : EmailMessage) (db : Database)
       (c : Credential) (e : String),
      dbWF db = true →
      env.insertFail = none →
      env.findById credentialId = Except.ok (some c) →
      c.type = CommunicationType.email →
      (strFalsy c.host || natFalsy c.port || c.secure.isNone) = false →
      env.sendMail c m = Except.error e →
      (∃ e2, (SmtpService.sendEmail env cache credentialId m db).result =
        Except.error e2)
      ∧ (SmtpService.sendEmail env cache credentialId m db).db.messages =
          db.messages ++
            [{ (insertPendingSmtp credentialId m db).1 with
                status := MsgStatus.failed, error_message := some e }]) ∧
    (∀ (env : ZohoService.Env) (credentialId : String) (m : EmailMessage)
       (db : Database) (c : Credential) (tok acc : String)
       (details : List ZohoAttachmentDetails) (e : String),
      env.insertFail = none →
      env.findById credentialId = Except.ok (some c) →
      env.tokenReq c.username c.password = Except.ok tok →
      env.accountReq tok = Except.ok (some acc) →
      ZohoService.stageAttachments env acc tok (m.attachments.getD []) =
        Except.ok details →
      env.sendReq acc tok
        { fromAddress := c.name
          toAddress := m.«to»
          ccAddress := m.cc
          bccAddress := m.bcc
          subject := m.subject
          content := if strTruthy m.html then m.html else m.text
          mailFormat := if strTruthy m.html then "html" else "plaintext"
          attachments := details } = Except.error e →
      (∃ e2, (ZohoService.sendEmail env credentialId m db).result =
        Except.error e2)
      ∧ (ZohoService.sendEmail env credentialId m db).db = db) := by
  refine ⟨?_, ?_, ?_, ?_⟩
  · intro env cache credentialId m db c hwf hins hfind hty hfld hsend
    have h := SmtpService.sendEmail_success env cache credentialId m db c
      hwf hins hfind hty hfld hsend
    exact ⟨h.1, by rw [h.2.1]⟩
  · intro env credentialId m db c tok acc details hwf hins hfind htok hacc
      hstage hsend
    have h := ZohoService.zohoSend_success env credentialId m db c tok acc
      details hwf hins hfind htok hacc hstage hsend
    exact ⟨h.1, by rw [h.2.1]⟩
  · intro env cache credentialId m db c e hwf hins hfind hty hfld hsend
    have h := SmtpService.sendEmail_dispatchFail env cache credentialId m db
      c e hwf hins hfind hty hfld hsend
    exact ⟨⟨_, h.1⟩, by rw [h.2.1]⟩
  · intro env credentialId m db c tok acc details e hins hfind htok hacc
      hstage hsend
    have h := ZohoService.zohoSend_dispatchFail env credentialId m db c tok
      acc details e hins hfind htok hacc hstage hsend
    exact ⟨⟨_, h.1⟩, h.2.1⟩

/-- Witness for the amended C8: concrete matched runs showing agreement on
the success path and divergence on dispatch failure. -/
theorem C8_witness :
    (SmtpService.sendEmail smtpEnvOk none "cred1" exMsg emptyDb).result =
      Except.ok () ∧
    (ZohoService.sendEmail zohoEnvOk "cred1" exMsg emptyDb).result =
      Except.ok () ∧
    (SmtpService.sendEmail smtpEnvSendFail none "cred1" exMsg
      emptyDb).db.messages.length = 1 ∧
    (ZohoService.sendEmail zohoEnvSendFail "cred1" exMsg emptyDb).db =
      emptyDb := by
  refine ⟨?_, ?_, ?_, ?_⟩
  · exact (C8_variants_success_agree_failure_diverge.1 smtpEnvOk none
      "cred1" exMsg emptyDb exCred (by decide) (by rfl) (by rfl) (by rfl)
      (by decide) (by rfl)).1
  · exact (C8_variants_success_agree_failure_diverge.2.1 zohoEnvOk "cred1"
      exMsg emptyDb exCred "tok" "acc" [] (by decide) (by rfl) (by rfl)
      (by rfl) (by rfl) (by rfl) (by rfl)).1
  · have h := (C8_variants_success_agree_failure_diverge.2.2.1
      smtpEnvSendFail none "cred1" exMsg emptyDb exCred
      "connect ECONNREFUSED" (by decide) (by rfl) (by rfl) (by rfl)
      (by decide) (by rfl)).2
    rw [h]
    decide
  · exact (C8_variants_success_agree_failure_diverge.2.2.2 zohoEnvSendFail
      "cred1" exMsg emptyDb exCred "tok" "acc" [] "connect ECONNREFUSED"
      (by rfl) (by rfl) (by rfl) (by rfl) (by rfl) (by rfl)).2

/-- Witness for C10 at a concrete unreachable-host run. -/
theorem C10_witness :
    (verifyConnection verifyEnvFail none "cred1" emptyDb).result ≠
      Except.ok false :=
  C10_verifyConnection_never_false verifyEnvFail none "cred1" emptyDb

end ContactService
